import Mathlib

/-!
Verification of the watch/retry/streaming subsystem of osbs-client
(files osbs/core.py and osbs/http.py), under a shallow embedding.

Modelling conventions:
* JSON documents (the results of Python json.loads) are modelled by the
  inductive Json below; dictionaries are association lists with unique keys
  (json.loads deduplicates keys), numbers are restricted to integers and
  booleans (the only shapes the modelled code paths inspect).
* A response line is modelled by the result of parsing it:
  none stands for a line whose json.loads raises ValueError, some j for a
  line parsing to document j.
* Python exceptions are represented by the PyError type; functions that can
  raise return Except PyError.
* Timestamps (time.time()) are modelled as exact rationals.
-/

/-- The result of Python json.loads when it succeeds. -/
inductive Json where
  | null
  | b (x : Bool)
  | i (n : Int)
  | s (st : String)
  | arr (xs : List Json)
  | obj (kvs : List (String × Json))

mutual

/-- Decidable equality of JSON documents (Python structural ==, with dicts
as ordered association lists). -/
def Json.decEq : (a b : Json) → Decidable (a = b)
  | .null, .null => .isTrue rfl
  | .null, .b _ => .isFalse (fun h => Json.noConfusion h)
  | .null, .i _ => .isFalse (fun h => Json.noConfusion h)
  | .null, .s _ => .isFalse (fun h => Json.noConfusion h)
  | .null, .arr _ => .isFalse (fun h => Json.noConfusion h)
  | .null, .obj _ => .isFalse (fun h => Json.noConfusion h)
  | .b _, .null => .isFalse (fun h => Json.noConfusion h)
  | .b x, .b y =>
    if h : x = y then .isTrue (by rw [h]) else .isFalse (fun hh => h (Json.b.inj hh))
  | .b _, .i _ => .isFalse (fun h => Json.noConfusion h)
  | .b _, .s _ => .isFalse (fun h => Json.noConfusion h)
  | .b _, .arr _ => .isFalse (fun h => Json.noConfusion h)
  | .b _, .obj _ => .isFalse (fun h => Json.noConfusion h)
  | .i _, .null => .isFalse (fun h => Json.noConfusion h)
  | .i _, .b _ => .isFalse (fun h => Json.noConfusion h)
  | .i n, .i m =>
    if h : n = m then .isTrue (by rw [h]) else .isFalse (fun hh => h (Json.i.inj hh))
  | .i _, .s _ => .isFalse (fun h => Json.noConfusion h)
  | .i _, .arr _ => .isFalse (fun h => Json.noConfusion h)
  | .i _, .obj _ => .isFalse (fun h => Json.noConfusion h)
  | .s _, .null => .isFalse (fun h => Json.noConfusion h)
  | .s _, .b _ => .isFalse (fun h => Json.noConfusion h)
  | .s _, .i _ => .isFalse (fun h => Json.noConfusion h)
  | .s a, .s c =>
    if h : a = c then .isTrue (by rw [h]) else .isFalse (fun hh => h (Json.s.inj hh))
  | .s _, .arr _ => .isFalse (fun h => Json.noConfusion h)
  | .s _, .obj _ => .isFalse (fun h => Json.noConfusion h)
  | .arr _, .null => .isFalse (fun h => Json.noConfusion h)
  | .arr _, .b _ => .isFalse (fun h => Json.noConfusion h)
  | .arr _, .i _ => .isFalse (fun h => Json.noConfusion h)
  | .arr _, .s _ => .isFalse (fun h => Json.noConfusion h)
  | .arr xs, .arr ys =>
    match Json.decEqList xs ys with
    | .isTrue h => .isTrue (by rw [h])
    | .isFalse h => .isFalse (fun hh => h (Json.arr.inj hh))
  | .arr _, .obj _ => .isFalse (fun h => Json.noConfusion h)
  | .obj _, .null => .isFalse (fun h => Json.noConfusion h)
  | .obj _, .b _ => .isFalse (fun h => Json.noConfusion h)
  | .obj _, .i _ => .isFalse (fun h => Json.noConfusion h)
  | .obj _, .s _ => .isFalse (fun h => Json.noConfusion h)
  | .obj _, .arr _ => .isFalse (fun h => Json.noConfusion h)
  | .obj xs, .obj ys =>
    match Json.decEqPairs xs ys with
    | .isTrue h => .isTrue (by rw [h])
    | .isFalse h => .isFalse (fun hh => h (Json.obj.inj hh))

/-- Decidable equality of JSON arrays. -/
def Json.decEqList : (xs ys : List Json) → Decidable (xs = ys)
  | [], [] => .isTrue rfl
  | [], _ :: _ => .isFalse (fun h => List.noConfusion h)
  | _ :: _, [] => .isFalse (fun h => List.noConfusion h)
  | x :: xs, y :: ys =>
    match Json.decEq x y with
    | .isFalse h1 => .isFalse (fun h => h1 (List.cons.inj h).1)
    | .isTrue h1 =>
      match Json.decEqList xs ys with
      | .isTrue h2 => .isTrue (by rw [h1, h2])
      | .isFalse h2 => .isFalse (fun h => h2 (List.cons.inj h).2)

/-- Decidable equality of JSON dict entry lists. -/
def Json.decEqPairs : (xs ys : List (String × Json)) → Decidable (xs = ys)
  | [], [] => .isTrue rfl
  | [], _ :: _ => .isFalse (fun h => List.noConfusion h)
  | _ :: _, [] => .isFalse (fun h => List.noConfusion h)
  | (k, v) :: xs, (l, w) :: ys =>
    if hk : k = l then
      match Json.decEq v w with
      | .isFalse h1 => .isFalse (fun h => h1 (congrArg Prod.snd (List.cons.inj h).1))
      | .isTrue h1 =>
        match Json.decEqPairs xs ys with
        | .isTrue h2 => .isTrue (by rw [hk, h1, h2])
        | .isFalse h2 => .isFalse (fun h => h2 (List.cons.inj h).2)
    else .isFalse (fun h => hk (congrArg Prod.fst (List.cons.inj h).1))

end

instance : DecidableEq Json := Json.decEq

/-- Python exceptions raised (or caught) by the modelled code paths.
OsbsResponseException carries its HTTP status code; exception messages are
abstracted away because no modelled code path inspects them. -/
inductive PyError where
  | keyError
  | typeError
  | attributeError
  | valueError
  | osbsWatchBuildNotFound
  | osbsException
  | osbsResponseException (status : Nat)
  | chunkedEncodingError
  | connectionError
  | incompleteRead
  deriving DecidableEq

instance {ε α : Type} [DecidableEq ε] [DecidableEq α] : DecidableEq (Except ε α) := fun a b =>
  match a, b with
  | .error e, .error f =>
    if h : e = f then .isTrue (by rw [h]) else .isFalse (by simp [h])
  | .ok x, .ok y =>
    if h : x = y then .isTrue (by rw [h]) else .isFalse (by simp [h])
  | .error _, .ok _ => .isFalse (fun h => Except.noConfusion h)
  | .ok _, .error _ => .isFalse (fun h => Except.noConfusion h)

/-- First-match association-list lookup: Python dict lookup (keys unique). -/
def jlookup : List (String × Json) → String → Option Json
  | [], _ => none
  | (k, v) :: rest, key => if k = key then some v else jlookup rest key

/-- Python subscript j[key] with a string key: dict lookup (KeyError when the
key is absent); every other value raises TypeError (ints and None are not
subscriptable, list and str subscripts must be integers). -/
def pyIndex (j : Json) (key : String) : Except PyError Json :=
  match j with
  | .obj kvs =>
    match jlookup kvs key with
    | some v => .ok v
    | none => .error .keyError
  | _ => .error .typeError

/-- Two-step Python subscript j[k1][k2]. -/
def pyIndex2 (j : Json) (k1 k2 : String) : Except PyError Json :=
  match pyIndex j k1 with
  | .error e => .error e
  | .ok j1 => pyIndex j1 k2

/-- Whether the string pat occurs as a substring of s, for non-empty pat
(Python `pat in s`). -/
def strContainsSub (s pat : String) : Bool :=
  (s.splitOn pat).length != 1

/-- Python membership `key in j`: key lookup on dicts, element membership on
lists, substring test on strings; ints, booleans and None raise TypeError
(argument not iterable). -/
def pyContains (j : Json) (key : String) : Except PyError Bool :=
  match j with
  | .obj kvs => .ok (jlookup kvs key).isSome
  | .arr xs => .ok (xs.contains (.s key))
  | .s st => .ok (strContainsSub st key)
  | _ => .error .typeError

/-- ASCII lower-casing of one character (Python str.lower on the ASCII data
the modelled code handles). -/
def lowerChar (c : Char) : Char :=
  if 65 ≤ c.toNat ∧ c.toNat ≤ 90 then Char.ofNat (c.toNat + 32) else c

/-- ASCII lower-casing of a string. -/
def strLower (s : String) : String := String.mk (s.data.map lowerChar)

/-- Python j.lower(): defined on strings (ASCII case in the modelled data),
AttributeError on every other value. -/
def pyLower (j : Json) : Except PyError String :=
  match j with
  | .s st => .ok (strLower st)
  | _ => .error .attributeError

/-- Python j.get(key, default): defined on dicts, AttributeError otherwise. -/
def pyGetD (j : Json) (key : String) (dflt : Json) : Except PyError Json :=
  match j with
  | .obj kvs => .ok ((jlookup kvs key).getD dflt)
  | _ => .error .attributeError

/-- Python truthiness of a JSON value. -/
def pyTruthy : Json → Bool
  | .null => false
  | .b x => x
  | .i n => n != 0
  | .s st => st != ""
  | .arr xs => !xs.isEmpty
  | .obj kvs => !kvs.isEmpty

/-- Python isinstance(v, numbers.Integral) together with the value used in
comparisons and the rendering used by the %s format: ints are themselves,
and booleans count as integral (True is 1, False is 0, rendered True/False). -/
def pyIntegral : Json → Option (Int × String)
  | .i n => some (n, toString n)
  | .b true => some (1, "True")
  | .b false => some (0, "False")
  | _ => none

/-- Python equality `j == s` between a JSON value and a str: true exactly for
the equal string (values of other types compare unequal without raising). -/
def pyEqStr (j : Json) (s : String) : Bool :=
  match j with
  | .s st => st == s
  | _ => false

/-- Modelled from the spec: osbs.utils.graceful_chain_get (osbs/utils.py is
not under src/) follows the chain of keys through nested dicts and returns
None as soon as any step fails (missing key, or a non-dict value) — the
extract-or-skip pattern of spec section 4.4. -/
def gracefulChainGet (j : Json) : List String → Option Json
  | [] => some j
  | k :: ks =>
    match j with
    | .obj kvs =>
      match jlookup kvs k with
      | some v => gracefulChainGet v ks
      | none => none
    | _ => none

/-- Modelled from the spec: osbs.constants WATCH_MODIFIED (osbs/constants.py
is not under src/); spec section 3 fixes event kinds as the lower-cased
type field, one of added, modified, deleted, error. -/
def WATCH_MODIFIED : String := "modified"

/-- Modelled from the spec: osbs.constants WATCH_DELETED. -/
def WATCH_DELETED : String := "deleted"

/-- Modelled from the spec: osbs.constants WATCH_ERROR. -/
def WATCH_ERROR : String := "error"

/-- httplib.OK. -/
def httplibOK : Nat := 200

/-- httplib.CREATED. -/
def httplibCREATED : Nat := 201

/-- httplib.NOT_FOUND. -/
def httplibNOT_FOUND : Nat := 404

/-- check_response (osbs/core.py lines 45-53): raises OsbsResponseException
carrying the status code unless the status is httplib.OK or
httplib.CREATED. (The error-message body is abstracted away.) -/
def check_response (status : Nat) : Except PyError Unit :=
  if status = httplibOK ∨ status = httplibCREATED then .ok ()
  else .error (.osbsResponseException status)

/-- One line of the body of a watch connection, as handled by the loop body
of Openshift.watch_resource (osbs/core.py lines 552-568): json.loads failure
(ValueError) is caught and the line skipped; then Python membership tests
for the object and type keys skip the line when a key is missing (raising
TypeError on non-iterable documents, as the in operator does); a surviving
line yields the pair of the lower-cased type value (AttributeError when the
type value is not a string) and the object value. -/
def processLine (line : Option Json) : Except PyError (Option (String × Json)) :=
  match line with
  | none => .ok none
  | some j =>
    match pyContains j "object" with
    | .error e => .error e
    | .ok hasObj =>
      if !hasObj then .ok none
      else
        match pyContains j "type" with
        | .error e => .error e
        | .ok hasType =>
          if !hasType then .ok none
          else
            match pyIndex j "type" with
            | .error e => .error e
            | .ok t =>
              match pyLower t with
              | .error e => .error e
              | .ok tl =>
                match pyIndex j "object" with
                | .error e => .error e
                | .ok o => .ok (some (tl, o))

/-- The events yielded from a single watch connection's line sequence,
together with the exception (if any) that escaped the generator while
processing those lines. -/
def processLines : List (Option Json) → List (String × Json) × Option PyError
  | [] => ([], none)
  | l :: rest =>
    match processLine l with
    | .error e => ([], some e)
    | .ok none => processLines rest
    | .ok (some ev) =>
      let r := processLines rest
      (ev :: r.1, r.2)

/-- Declarative description of a well-formed watch line: it parses to a JSON
dict carrying both a type key with a string value and an object key; the
event it denotes pairs the lower-cased type with the object. -/
def wellFormedLine : Option Json → Option (String × Json)
  | some (.obj kvs) =>
    match jlookup kvs "type", jlookup kvs "object" with
    | some (.s t), some o => some (strLower t, o)
    | _, _ => none
  | _ => none

/-- A line the watch loop handles without raising: a parse failure, or a
dict that lacks one of the two keys, or a dict with both keys whose type
value is a string. -/
def benignLine : Option Json → Bool
  | none => true
  | some (.obj kvs) =>
    match jlookup kvs "object" with
    | none => true
    | some _ =>
      match jlookup kvs "type" with
      | none => true
      | some (.s _) => true
      | some _ => false
  | some _ => false

/-- One watch connection: the HTTP status of the response and the parse
results of the lines of its body. -/
structure WatchConn where
  status : Nat
  lines : List (Option Json)
  deriving DecidableEq

/-- State of the watch generator after consuming a finite run of
connections: still running (the source loops forever, sleeping 30s and
reconnecting after each exhausted connection), or terminated by an
uncaught exception. -/
inductive WatchState where
  | pending
  | raised (e : PyError)
  deriving DecidableEq

/-- Openshift.watch_resource (osbs/core.py lines 543-571) over a finite run
of connection attempts: each connection's status is passed to
check_response before its lines are consumed, then its lines are processed;
an exception terminates the generator, a normally exhausted connection is
followed by a reconnection (modelled by the next list entry). -/
def watchRun : List WatchConn → List (String × Json) × WatchState
  | [] => ([], .pending)
  | c :: rest =>
    match check_response c.status with
    | .error e => ([], .raised e)
    | .ok _ =>
      match processLines c.lines with
      | (evs, some e) => (evs, .raised e)
      | (evs, none) =>
        let r := watchRun rest
        (evs ++ r.1, r.2)

/-- Openshift.wait (osbs/core.py lines 573-612) over the event sequence the
watch yields: for each event, obj metadata name is extracted (KeyError
caught, skipping the event; any other lookup error propagates), then obj
status phase likewise, then the phase is lower-cased (AttributeError when
the phase is not a string propagates); when the name equals build_id and the
lower-cased phase is a member of states, the object is returned; otherwise
the loop keeps watching.  An exhausted event sequence raises
OsbsWatchBuildNotFound. -/
def waitRun (build_id : String) (states : List String) : List (String × Json) → Except PyError Json
  | [] => .error .osbsWatchBuildNotFound
  | (_ct, obj) :: rest =>
    match pyIndex2 obj "metadata" "name" with
    | .error .keyError => waitRun build_id states rest
    | .error e => .error e
    | .ok objName =>
      match pyIndex2 obj "status" "phase" with
      | .error .keyError => waitRun build_id states rest
      | .error e => .error e
      | .ok objStatus =>
        match pyLower objStatus with
        | .error e => .error e
        | .ok lowered =>
          if pyEqStr objName build_id then
            if states.contains lowered then .ok obj
            else waitRun build_id states rest
          else waitRun build_id states rest

/-- The retry loop of Openshift.wait_for_build_to_finish (osbs/core.py lines
614-623), parametrised by the outcome of each successive wait invocation
(attempts n is the result of the n-th call, counted from 0): a successful
wait returns its object, OsbsWatchBuildNotFound is caught and the wait
retried, any other exception propagates; the pair also returns how many
times wait was invoked. -/
def runWaitRetries (attempts : Nat → Except PyError Json) : Nat → Nat → Except PyError Json × Nat
  | 0, calls => (.error .osbsException, calls)
  | fuel + 1, calls =>
    match attempts calls with
    | .ok obj => (.ok obj, calls + 1)
    | .error .osbsWatchBuildNotFound => runWaitRetries attempts fuel (calls + 1)
    | .error e => (.error e, calls + 1)

/-- Openshift.wait_for_build_to_finish: for retry in range(1, 10) gives a
budget of 9 wait invocations, after which OsbsException is raised. -/
def wait_for_build_to_finish (attempts : Nat → Except PyError Json) : Except PyError Json × Nat :=
  runWaitRetries attempts 9 0

/-- Python int() applied to an exact rational: truncation toward zero. -/
def pyIntTrunc (q : Rat) : Int := q.num.tdiv (q.den : Int)

/-- One log-streaming connection: the HTTP status of the response, the lines
it yields, and the idle time (now minus last_activity, seconds) observed
when the connection closes or its read is interrupted (IncompleteRead is
caught by stream_logs, so both endings join the same path). -/
structure LogConn where
  status : Nat
  lines : List String
  idleAtClose : Rat
  deriving DecidableEq

/-- Openshift.stream_logs (osbs/core.py lines 388-426) over a finite run of
connections, carrying the sinceSeconds query parameter of the next request
(none for the initial request, which sends only follow=1): each request's
response status goes through check_response, its lines are yielded, and at
connection close the idle time decides between finishing (idle strictly
below the 60s threshold) and reissuing the request with
sinceSeconds = int(idle - 1).  Returns the yielded lines, the sinceSeconds
value of each request issued, and the exception that escaped, if any. -/
def streamLogsRun : List LogConn → Option Int → List String × List (Option Int) × Option PyError
  | [], _ => ([], [], none)
  | c :: rest, since =>
    match check_response c.status with
    | .error e => ([], [since], some e)
    | .ok _ =>
      if c.idleAtClose < 60 then (c.lines, [since], none)
      else
        let r := streamLogsRun rest (some (pyIntTrunc (c.idleAtClose - 1)))
        (c.lines ++ r.1, since :: r.2.1, r.2.2)

/-- Openshift.stream_logs started with kwargs carrying only follow=1. -/
def stream_logs (conns : List LogConn) : List String × List (Option Int) × Option PyError :=
  streamLogsRun conns none

/-- How the underlying requests iter_lines iteration ends: normally, or by
raising one of the listed exceptions. -/
inductive ReadEnd where
  | normal
  | chunkedEncodingError
  | connectionError
  | incompleteRead
  | otherError
  deriving DecidableEq

/-- The exception tuple of the except clause in HttpStream.iter_lines
(osbs/http.py lines 209-211): requests ChunkedEncodingError,
requests ConnectionError, httplib IncompleteRead. -/
def caughtByIterLines : ReadEnd → Bool
  | .chunkedEncodingError => true
  | .connectionError => true
  | .incompleteRead => true
  | _ => false

/-- HttpStream.iter_lines (osbs/http.py lines 194-212): the lines already
yielded by the underlying iteration are passed through; when the iteration
ends by raising one of the caught exceptions, raise StopIteration inside the
generator (py2 semantics, matching the repository's py2-only core module)
ends the iteration silently, exactly like a normal end; any other exception
propagates after the yielded prefix. -/
def httpStreamIterLines (lines : List String) (e : ReadEnd) : List String × Option ReadEnd :=
  if e = .normal ∨ caughtByIterLines e then (lines, none) else (lines, some e)

/-- requests.codes.OK. -/
def requestsCodesOK : Nat := 200

/-- requests.codes.CREATED. -/
def requestsCodesCREATED : Nat := 201

/-- HttpResponse.json (osbs/http.py lines 237-243), with the body given as
its json.loads parse result (none when the text is not valid JSON, raising
ValueError; the encoding-guessing decode step is abstracted away): with
check set, a status code outside 0, requests.codes.OK and
requests.codes.CREATED raises OsbsResponseException carrying the status
before any parsing; otherwise the parsed document is returned. -/
def httpResponseJson (status : Nat) (body : Option Json) (check : Bool) : Except PyError Json :=
  if check && !(status == 0 || status == requestsCodesOK || status == requestsCodesCREATED) then
    .error (.osbsResponseException status)
  else
    match body with
    | some j => .ok j
    | none => .error .valueError

/-- Openshift.wait_for_new_build_config_instance (osbs/core.py lines
369-386) over the event sequence the watch yields: a modified event whose
status lastVersion chain resolves to an integral value (Python bools count)
strictly greater than prev returns the formatted instance name; a modified
event with a missing or non-integral lastVersion is skipped (continue); a
deleted event breaks out of the loop; falling out of the loop raises
OsbsResponseException with httplib.NOT_FOUND. -/
def wait_for_new_build_config_instance (bcId : String) (prev : Int) :
    List (String × Json) → Except PyError String
  | [] => .error (.osbsResponseException httplibNOT_FOUND)
  | (ct, obj) :: rest =>
    if ct = WATCH_MODIFIED then
      match (gracefulChainGet obj ["status", "lastVersion"]).bind pyIntegral with
      | none => wait_for_new_build_config_instance bcId prev rest
      | some (v, vs) =>
        if prev < v then .ok (bcId ++ "-" ++ vs)
        else if ct = WATCH_DELETED then .error (.osbsResponseException httplibNOT_FOUND)
        else wait_for_new_build_config_instance bcId prev rest
    else if ct = WATCH_DELETED then .error (.osbsResponseException httplibNOT_FOUND)
    else wait_for_new_build_config_instance bcId prev rest

/-- Declarative decision taken on a single buildconfig watch event: the
first event on which this is some value determines the outcome of
wait_for_new_build_config_instance. -/
def newInstanceDecision (bcId : String) (prev : Int) (ev : String × Json) :
    Option (Except PyError String) :=
  if ev.1 = WATCH_MODIFIED then
    match (gracefulChainGet ev.2 ["status", "lastVersion"]).bind pyIntegral with
    | some (v, vs) => if prev < v then some (.ok (bcId ++ "-" ++ vs)) else none
    | none => none
  else if ev.1 = WATCH_DELETED then some (.error (.osbsResponseException httplibNOT_FOUND))
  else none

/-- The annotation key openshift.io/image.dockerRepositoryCheck used by
Openshift.import_image. -/
def dockerCheckKey : String := "openshift.io/image.dockerRepositoryCheck"

/-- The watch loop of Openshift.import_image (osbs/core.py lines 745-770):
a deleted or error event breaks out (the function then returns False); a
modified event whose metadata annotations carry a truthy
dockerRepositoryCheck value returns whether the tags in the event's status
differ from the tags recorded before the import; other events (and modified
events with a missing or falsy check annotation) are skipped; an exhausted
stream returns False. -/
def importWatchLoop (oldtags : Json) : List (String × Json) → Except PyError Bool
  | [] => .ok false
  | (ct, obj) :: rest =>
    if ct = WATCH_DELETED then .ok false
    else if ct = WATCH_ERROR then .ok false
    else if ct = WATCH_MODIFIED then
      match pyGetD obj "metadata" (.obj []) with
      | .error e => .error e
      | .ok md =>
        match pyGetD md "annotations" (.obj []) with
        | .error e => .error e
        | .ok ann =>
          match pyGetD ann dockerCheckKey (.b false) with
          | .error e => .error e
          | .ok v =>
            if pyTruthy v then
              match pyGetD obj "status" (.obj []) with
              | .error e => .error e
              | .ok st =>
                match pyGetD st "tags" (.arr []) with
                | .error e => .error e
                | .ok newtags => .ok (decide (newtags ≠ oldtags))
            else importWatchLoop oldtags rest
    else importWatchLoop oldtags rest

/-- Models the statements metadata.setdefault of annotations to an empty
dict followed by item assignment of the check annotation (osbs/core.py
lines 736-738): setdefault raises AttributeError on a non-dict metadata,
and the item assignment raises TypeError when a pre-existing annotations
value is not a dict. -/
def annotAssignCheck (md : Json) : Except PyError Unit :=
  match md with
  | .obj kvs =>
    match jlookup kvs "annotations" with
    | some (.obj _) => .ok ()
    | some _ => .error .typeError
    | none => .ok ()
  | _ => .error .attributeError

/-- Openshift.import_image (osbs/core.py lines 716-770) given the
imagestream document fetched at entry, the status of the PUT that marks the
stream as needing import, and the watch events that follow: raises
OsbsException when the spec carries no dockerImageRepository key (before
any watching), records the pre-import tags, performs the annotation
assignment, checks the PUT response, reads metadata resourceVersion, and
then drives the watch loop. -/
def import_image (isj : Json) (putStatus : Nat) (events : List (String × Json)) :
    Except PyError Bool :=
  match pyGetD isj "spec" (.obj []) with
  | .error e => .error e
  | .ok spec =>
    match pyContains spec "dockerImageRepository" with
    | .error e => .error e
    | .ok hasRepo =>
      if !hasRepo then .error .osbsException
      else
        match pyGetD isj "status" (.obj []) with
        | .error e => .error e
        | .ok st =>
          match pyGetD st "tags" (.arr []) with
          | .error e => .error e
          | .ok oldtags =>
            match pyIndex isj "metadata" with
            | .error e => .error e
            | .ok md =>
              match annotAssignCheck md with
              | .error e => .error e
              | .ok _ =>
                match check_response putStatus with
                | .error e => .error e
                | .ok _ =>
                  match pyIndex md "resourceVersion" with
                  | .error e => .error e
                  | .ok _ => importWatchLoop oldtags events

/-- Whether a result is a raised OsbsResponseException (of any status). -/
def isRespErr : Except PyError Json → Bool
  | .error (.osbsResponseException _) => true
  | _ => false

/-! ## Helper lemmas -/

theorem pyEqStr_true {j : Json} {s : String} (h : pyEqStr j s = true) : j = .s s := by
  cases j <;> simp [pyEqStr] at h
  simp [h]

theorem gracefulChainGet_of_pyIndex2 {j : Json} {k1 k2 : String} {v : Json}
    (h : pyIndex2 j k1 k2 = .ok v) : gracefulChainGet j [k1, k2] = some v := by
  cases j with
  | obj kvs =>
    cases h1 : jlookup kvs k1 with
    | none => simp [pyIndex2, pyIndex, h1] at h
    | some j1 =>
      simp only [pyIndex2, pyIndex, h1] at h
      cases j1 with
      | obj kvs1 =>
        cases h2 : jlookup kvs1 k2 with
        | none => simp [h2] at h
        | some w =>
          simp only [h2, Except.ok.injEq] at h
          subst h
          simp [gracefulChainGet, h1, h2]
      | null => simp at h
      | b x => simp at h
      | i n => simp at h
      | s st => simp at h
      | arr xs => simp at h
  | null => simp [pyIndex2, pyIndex] at h
  | b x => simp [pyIndex2, pyIndex] at h
  | i n => simp [pyIndex2, pyIndex] at h
  | s st => simp [pyIndex2, pyIndex] at h
  | arr xs => simp [pyIndex2, pyIndex] at h

theorem runWaitRetries_allNotFound (attempts : Nat → Except PyError Json)
    (h : ∀ n, attempts n = .error .osbsWatchBuildNotFound) :
    ∀ fuel calls, runWaitRetries attempts fuel calls = (.error .osbsException, calls + fuel) := by
  intro fuel
  induction fuel with
  | zero => intro calls; simp [runWaitRetries]
  | succ f ih =>
    intro calls
    rw [runWaitRetries, h calls, ih (calls + 1)]
    have : calls + 1 + f = calls + (f + 1) := by omega
    rw [this]

theorem runWaitRetries_firstOk (attempts : Nat → Except PyError Json) :
    ∀ (k fuel calls : Nat) (obj : Json), k < fuel →
    (∀ i, i < k → attempts (calls + i) = .error .osbsWatchBuildNotFound) →
    attempts (calls + k) = .ok obj →
    runWaitRetries attempts fuel calls = (.ok obj, calls + k + 1) := by
  intro k
  induction k with
  | zero =>
    intro fuel calls obj hk _ hok
    match fuel, hk with
    | f + 1, _ =>
      rw [runWaitRetries]
      rw [show calls + 0 = calls from rfl] at hok
      rw [hok]
  | succ k ih =>
    intro fuel calls obj hk hpre hok
    match fuel, hk with
    | f + 1, _ =>
      rw [runWaitRetries]
      have h0 : attempts calls = .error .osbsWatchBuildNotFound := by
        have := hpre 0 (by omega)
        simpa using this
      rw [h0]
      have hpre' : ∀ i, i < k → attempts (calls + 1 + i) = .error .osbsWatchBuildNotFound := by
        intro i hi
        have := hpre (i + 1) (by omega)
        have e : calls + (i + 1) = calls + 1 + i := by omega
        rw [e] at this
        exact this
      have hok' : attempts (calls + 1 + k) = .ok obj := by
        have e : calls + (k + 1) = calls + 1 + k := by omega
        rw [e] at hok
        exact hok
      have := ih f (calls + 1) obj (by omega) hpre' hok'
      rw [this]
      have e2 : calls + 1 + k + 1 = calls + (k + 1) + 1 := by omega
      rw [e2]

/-! ## Claims -/

/-- Claim C2 (confirmed): when every wait invocation raises
OsbsWatchBuildNotFound, wait_for_build_to_finish invokes wait exactly 9
times and then raises OsbsException (the dedicated failed-to-wait error),
not the not-found error; and when the k-th invocation (k below the budget)
returns an object after not-found failures, that object is returned
unchanged after k+1 invocations. -/
theorem claim_C2_retry_bound (attempts : Nat → Except PyError Json) :
    ((∀ n, attempts n = .error .osbsWatchBuildNotFound) →
      wait_for_build_to_finish attempts = (.error .osbsException, 9)) ∧
    (∀ k obj, k < 9 →
      (∀ i, i < k → attempts i = .error .osbsWatchBuildNotFound) →
      attempts k = .ok obj →
      wait_for_build_to_finish attempts = (.ok obj, k + 1)) := by
  constructor
  · intro h
    unfold wait_for_build_to_finish
    rw [runWaitRetries_allNotFound attempts h 9 0]
  · intro k obj hk hpre hok
    unfold wait_for_build_to_finish
    have hpre' : ∀ i, i < k → attempts (0 + i) = .error .osbsWatchBuildNotFound := by
      intro i hi; simpa using hpre i hi
    have hok' : attempts (0 + k) = .ok obj := by simpa using hok
    have := runWaitRetries_firstOk attempts k 9 0 obj hk hpre' hok'
    simpa using this

/-- Claim C2 witness: a wait that always raises not-found exhausts the
budget of 9 invocations and ends in OsbsException; a wait succeeding on the
third invocation returns its object after 3 invocations. -/
theorem claim_C2_witness :
    wait_for_build_to_finish (fun _ => .error .osbsWatchBuildNotFound) =
      (.error .osbsException, 9) ∧
    wait_for_build_to_finish
      (fun n => if n < 2 then .error .osbsWatchBuildNotFound else .ok Json.null) =
      (.ok Json.null, 3) := by
  constructor
  · exact (claim_C2_retry_bound _).1 (fun _ => rfl)
  · exact (claim_C2_retry_bound _).2 2 Json.null (by omega)
      (by intro i hi; simp [hi]) (by simp)

/-- Claim C7 (confirmed): a transient read interruption inside
HttpStream.iter_lines — a partial chunked read, a connection error, or an
incomplete read raised mid-iteration — is swallowed silently (py2
raise StopIteration semantics) and the iteration ends as a normal
end-of-stream: the consumer observes exactly the lines yielded so far and
no error propagates. -/
theorem claim_C7_iter_lines_swallow (lines : List String) (e : ReadEnd)
    (h : e = .chunkedEncodingError ∨ e = .connectionError ∨ e = .incompleteRead) :
    httpStreamIterLines lines e = (lines, none) := by
  rcases h with h | h | h <;> subst h <;> rfl

/-- Claim C7 witness: an incomplete read after two yielded lines ends the
iteration with exactly those two lines and no error. -/
theorem claim_C7_witness :
    httpStreamIterLines ["line1", "line2"] .incompleteRead = (["line1", "line2"], none) :=
  claim_C7_iter_lines_swallow _ _ (Or.inr (Or.inr rfl))

/-- Claim C8 counterexample: with check set, a response whose status code is
0 — which is outside the success codes 200 and 201 the claim names — does
not raise: HttpResponse.json returns the decoded body, because the source
also accepts the initial status 0.  This falsifies the claimed
if-and-only-if. -/
theorem claim_C8_counterexample :
    httpResponseJson 0 (some Json.null) true = .ok Json.null ∧
    ¬(0 = 200 ∨ 0 = 201) := by
  constructor
  · rfl
  · decide

/-- Claim C8 (amended): HttpResponse.json with check raises
OsbsResponseException (carrying the status) if and only if the status code
is outside the accepted set 0, 200, 201 (status 0, the initialized/unknown
status, is accepted in addition to the two success codes the claim names);
when the status is accepted and the body parses, the decoded document is
returned. -/
theorem claim_C8_json_check (status : Nat) (body : Option Json) :
    (isRespErr (httpResponseJson status body true) = true ↔
      ¬(status = 0 ∨ status = 200 ∨ status = 201)) ∧
    ((status = 0 ∨ status = 200 ∨ status = 201) →
      ∀ j, body = some j → httpResponseJson status body true = .ok j) := by
  constructor
  · by_cases h : status = 0 ∨ status = 200 ∨ status = 201
    · simp only [httpResponseJson, requestsCodesOK, requestsCodesCREATED]
      rcases h with h | h | h <;> subst h <;>
        cases body <;> simp [isRespErr]
    · have h0 : ¬status = 0 := fun hh => h (Or.inl hh)
      have h200 : ¬status = 200 := fun hh => h (Or.inr (Or.inl hh))
      have h201 : ¬status = 201 := fun hh => h (Or.inr (Or.inr hh))
      simp [httpResponseJson, requestsCodesOK, requestsCodesCREATED,
        h, h0, h200, h201, isRespErr]
  · intro h j hb
    subst hb
    simp only [httpResponseJson, requestsCodesOK, requestsCodesCREATED]
    rcases h with h | h | h <;> subst h <;> simp

/-- Claim C8 witness: a 200 response with a parseable body returns the
decoded document, and a 404 response raises the response error. -/
theorem claim_C8_witness :
    httpResponseJson 200 (some Json.null) true = .ok Json.null ∧
    isRespErr (httpResponseJson 404 (some Json.null) true) = true := by
  constructor
  · exact (claim_C8_json_check 200 (some Json.null)).2 (Or.inr (Or.inl rfl)) Json.null rfl
  · exact (claim_C8_json_check 404 (some Json.null)).1.mpr (by decide)

/-- Claim C3 counterexample: the line 5 is valid JSON and lacks both the
type and the object key, so the claim says it is dropped without the stream
terminating or raising; in the source the membership test object not in j
raises TypeError on the integer, terminating the generator. -/
theorem claim_C3_counterexample :
    processLines [some (Json.i 5)] = ([], some PyError.typeError) ∧
    (processLines [some (Json.i 5)]).2 ≠ none := by
  constructor
  · rfl
  · decide

theorem processLine_benign : ∀ (l : Option Json), benignLine l = true →
    processLine l = .ok (wellFormedLine l)
  | none, _ => rfl
  | some .null, h => by simp [benignLine] at h
  | some (.b _), h => by simp [benignLine] at h
  | some (.i _), h => by simp [benignLine] at h
  | some (.s _), h => by simp [benignLine] at h
  | some (.arr _), h => by simp [benignLine] at h
  | some (.obj kvs), h => by
    cases hobj : jlookup kvs "object" with
    | none => simp [processLine, pyContains, wellFormedLine, hobj]
    | some o =>
      cases htyp : jlookup kvs "type" with
      | none => simp [processLine, pyContains, wellFormedLine, hobj, htyp]
      | some t =>
        cases t with
        | s ts =>
          simp [processLine, pyContains, wellFormedLine, pyIndex, pyLower, hobj, htyp]
        | null => simp [benignLine, hobj, htyp] at h
        | b x => simp [benignLine, hobj, htyp] at h
        | i n => simp [benignLine, hobj, htyp] at h
        | arr xs => simp [benignLine, hobj, htyp] at h
        | obj kvs2 => simp [benignLine, hobj, htyp] at h

/-- Claim C3 (amended): over one connection's worth of response lines in
which every line that parses as JSON parses to a JSON object that is either
missing one of the type/object keys or carries a string type value (the
benign lines), the watch yields exactly the events of the well-formed lines
— object documents carrying both keys — in original line order, each as the
pair of the lower-cased type and the object, and drops the rest without
terminating or raising.  (Outside this shape the source can raise:
non-object JSON makes the membership test throw TypeError, and a non-string
type value makes lower() throw AttributeError, terminating the stream.) -/
theorem claim_C3_watch_connection (lines : List (Option Json))
    (h : ∀ l ∈ lines, benignLine l = true) :
    processLines lines = (lines.filterMap wellFormedLine, none) := by
  induction lines with
  | nil => rfl
  | cons l rest ih =>
    have hl := h l (List.mem_cons_self _ _)
    have hrest := ih (fun x hx => h x (List.mem_cons_of_mem _ hx))
    unfold processLines
    rw [processLine_benign l hl]
    cases hw : wellFormedLine l with
    | none => simp [hw, hrest, List.filterMap_cons]
    | some ev => simp [hw, hrest, List.filterMap_cons]

/-- Claim C3 witness: a stream interleaving an unparseable line, a valid
ADDED event, an object missing the type key and an object missing the
object key yields exactly the one valid event, in order, with no error. -/
theorem claim_C3_witness :
    processLines [none,
      some (Json.obj [("type", Json.s "ADDED"), ("object", Json.obj [])]),
      some (Json.obj [("object", Json.null)]),
      some (Json.obj [("type", Json.i 3)])] =
    ([("added", Json.obj [])], none) := by
  have := claim_C3_watch_connection [none,
      some (Json.obj [("type", Json.s "ADDED"), ("object", Json.obj [])]),
      some (Json.obj [("object", Json.null)]),
      some (Json.obj [("type", Json.i 3)])] (by decide)
  rw [this]
  rfl

/-- Claim C1 counterexample: the first event belongs to build B (target is
A) and carries the integer 5 as its phase; the claim says events whose
metadata name differs from the target are skipped no matter what their
phase is, so the wait should go on to return the second, matching event's
object; in the source the phase is lower-cased before the name comparison,
so the B event raises AttributeError and the matching object is never
returned. -/
theorem claim_C1_counterexample :
    waitRun "A" ["complete"]
      [("modified", Json.obj [("metadata", Json.obj [("name", Json.s "B")]),
        ("status", Json.obj [("phase", Json.i 5)])]),
       ("modified", Json.obj [("metadata", Json.obj [("name", Json.s "A")]),
        ("status", Json.obj [("phase", Json.s "Complete")])])] =
      .error .attributeError ∧
    waitRun "A" ["complete"]
      [("modified", Json.obj [("metadata", Json.obj [("name", Json.s "B")]),
        ("status", Json.obj [("phase", Json.i 5)])]),
       ("modified", Json.obj [("metadata", Json.obj [("name", Json.s "A")]),
        ("status", Json.obj [("phase", Json.s "Complete")])])] ≠
      .ok (Json.obj [("metadata", Json.obj [("name", Json.s "A")]),
        ("status", Json.obj [("phase", Json.s "Complete")])]) := by
  constructor
  · decide
  · decide

/-- Claim C1 (amended): the object wait returns always has metadata name
equal to the requested build_id — an event for another resource is never
returned; events whose metadata name or status phase is absent are skipped,
but an event whose phase is present and not a string terminates the wait
with AttributeError (regardless of its name) rather than being skipped. -/
theorem claim_C1_wait_name (build_id : String) (states : List String)
    (events : List (String × Json)) (obj : Json)
    (h : waitRun build_id states events = .ok obj) :
    gracefulChainGet obj ["metadata", "name"] = some (.s build_id) := by
  induction events with
  | nil => simp [waitRun] at h
  | cons ev rest ih =>
    obtain ⟨ct, o⟩ := ev
    unfold waitRun at h
    split at h
    · exact ih h
    · simp at h
    · split at h
      · exact ih h
      · simp at h
      · split at h
        · simp at h
        · split at h
          · split at h
            · rename_i x1 objName hmeta x2 objStatus hstatus x3 lowered hlow hpeq hcont
              have ho : o = obj := by simpa using h
              subst ho
              have hn : objName = .s build_id := pyEqStr_true hpeq
              subst hn
              exact gracefulChainGet_of_pyIndex2 hmeta
            · exact ih h
          · exact ih h

/-- Claim C1 witness: a wait over a stream holding one matching completed
build returns an object whose metadata name is the requested id. -/
theorem claim_C1_witness :
    gracefulChainGet
      (Json.obj [("metadata", Json.obj [("name", Json.s "b1")]),
        ("status", Json.obj [("phase", Json.s "Complete")])])
      ["metadata", "name"] = some (.s "b1") :=
  claim_C1_wait_name "b1" ["complete"]
    [("modified", Json.obj [("metadata", Json.obj [("name", Json.s "b1")]),
      ("status", Json.obj [("phase", Json.s "Complete")])])]
    (Json.obj [("metadata", Json.obj [("name", Json.s "b1")]),
      ("status", Json.obj [("phase", Json.s "Complete")])])
    (by decide)

/-- Claim C5 counterexample: an event for the target build with phase
Complete against the accepted-state set holding the capitalised member
Complete; the claim says the comparison does not depend on the case of the
accepted-set members, so the wait should succeed and return the object; in
the source only the phase is lower-cased, complete is not a member of the
set, and the wait falls off the stream raising OsbsWatchBuildNotFound. -/
theorem claim_C5_counterexample :
    waitRun "b1" ["Complete"]
      [("modified", Json.obj [("metadata", Json.obj [("name", Json.s "b1")]),
        ("status", Json.obj [("phase", Json.s "Complete")])])] =
      .error .osbsWatchBuildNotFound ∧
    waitRun "b1" ["Complete"]
      [("modified", Json.obj [("metadata", Json.obj [("name", Json.s "b1")]),
        ("status", Json.obj [("phase", Json.s "Complete")])])] ≠
      .ok (Json.obj [("metadata", Json.obj [("name", Json.s "b1")]),
        ("status", Json.obj [("phase", Json.s "Complete")])]) := by
  constructor
  · decide
  · decide

/-- Claim C5 (amended): for an event whose object carries the target name
and a string phase, the wait succeeds exactly when the lower-cased phase is
a member of the accepted-state set: the comparison is insensitive to the
case of the phase (an event with phase Complete satisfies a set holding
complete, as the final conjunct evaluates) but sensitive to the case of the
accepted-set members, which are matched verbatim against the lower-cased
phase. -/
theorem claim_C5_phase_case (build_id : String) (states : List String)
    (obj : Json) (rest : List (String × Json)) (ct phase : String)
    (hname : pyIndex2 obj "metadata" "name" = .ok (.s build_id))
    (hphase : pyIndex2 obj "status" "phase" = .ok (.s phase)) :
    (states.contains (strLower phase) = true →
      waitRun build_id states ((ct, obj) :: rest) = .ok obj) ∧
    (states.contains (strLower phase) = false →
      waitRun build_id states ((ct, obj) :: rest) = waitRun build_id states rest) ∧
    waitRun "b1" ["complete"]
      [("modified", Json.obj [("metadata", Json.obj [("name", Json.s "b1")]),
        ("status", Json.obj [("phase", Json.s "Complete")])])] =
      .ok (Json.obj [("metadata", Json.obj [("name", Json.s "b1")]),
        ("status", Json.obj [("phase", Json.s "Complete")])]) := by
  refine ⟨?_, ?_, by decide⟩
  · intro hc
    have hm : strLower phase ∈ states := by simpa using hc
    unfold waitRun
    rw [hname, hphase]
    simp [pyLower, pyEqStr, hm]
  · intro hc
    have hm : strLower phase ∉ states := by simpa using hc
    conv_lhs => rw [waitRun.eq_def]
    dsimp only
    rw [hname, hphase]
    simp [pyLower, pyEqStr, hm]

/-- Claim C5 witness: with the lowercase accepted set, the Complete-phase
event succeeds; with the capitalised accepted set, the same event is passed
over and the wait moves on to the rest of the stream. -/
theorem claim_C5_witness :
    waitRun "b1" ["complete"]
      [("modified", Json.obj [("metadata", Json.obj [("name", Json.s "b1")]),
        ("status", Json.obj [("phase", Json.s "Complete")])])] =
      .ok (Json.obj [("metadata", Json.obj [("name", Json.s "b1")]),
        ("status", Json.obj [("phase", Json.s "Complete")])]) ∧
    waitRun "b1" ["Complete"]
      [("modified", Json.obj [("metadata", Json.obj [("name", Json.s "b1")]),
        ("status", Json.obj [("phase", Json.s "Complete")])])] =
      waitRun "b1" ["Complete"] [] := by
  constructor
  · exact (claim_C5_phase_case "b1" ["complete"]
      (Json.obj [("metadata", Json.obj [("name", Json.s "b1")]),
        ("status", Json.obj [("phase", Json.s "Complete")])])
      [] "modified" "Complete" (by decide) (by decide)).1 (by decide)
  · exact (claim_C5_phase_case "b1" ["Complete"]
      (Json.obj [("metadata", Json.obj [("name", Json.s "b1")]),
        ("status", Json.obj [("phase", Json.s "Complete")])])
      [] "modified" "Complete" (by decide) (by decide)).2.1 (by decide)

/-- Claim C6 counterexample: the first watch connection answers 500 and a
second connection would deliver a valid event; the claim says a non-2xx
status is a reconnect-worthy failure after which the watch continues with a
new connection, so the event of the second connection should be delivered;
in the source check_response raises OsbsResponseException, which escapes
the generator: no event is delivered and no reconnection happens. -/
theorem claim_C6_counterexample :
    watchRun [⟨500, []⟩,
      ⟨200, [some (Json.obj [("type", Json.s "MODIFIED"), ("object", Json.obj [])])]⟩] =
      ([], .raised (.osbsResponseException 500)) ∧
    (watchRun [⟨500, []⟩,
      ⟨200, [some (Json.obj [("type", Json.s "MODIFIED"), ("object", Json.obj [])])]⟩]).1 = [] ∧
    (watchRun [⟨500, []⟩,
      ⟨200, [some (Json.obj [("type", Json.s "MODIFIED"), ("object", Json.obj [])])]⟩]).2 ≠
      WatchState.pending := by
  refine ⟨by decide, by decide, by decide⟩

/-- Claim C6 (amended): on every connection attempt the response status is
passed to check_response before any line of the body is consumed — a
non-2xx status yields no events at all, not even from that connection's own
lines — but a non-2xx status is not reconnect-worthy: it raises
OsbsResponseException carrying the status, terminating the watch instead of
reconnecting.  Only a connection whose lines end without raising is
followed by a reconnection (the next connection of the run). -/
theorem claim_C6_status_check (c : WatchConn) (rest : List WatchConn) :
    (¬(c.status = httplibOK ∨ c.status = httplibCREATED) →
      watchRun (c :: rest) = ([], .raised (.osbsResponseException c.status))) ∧
    ((c.status = httplibOK ∨ c.status = httplibCREATED) →
      (processLines c.lines).2 = none →
      watchRun (c :: rest) =
        ((processLines c.lines).1 ++ (watchRun rest).1, (watchRun rest).2)) := by
  constructor
  · intro hbad
    have hc : check_response c.status = .error (.osbsResponseException c.status) := by
      unfold check_response
      rw [if_neg hbad]
    conv_lhs => rw [watchRun.eq_def]
    dsimp only
    rw [hc]
  · intro hok herr
    rcases hp : processLines c.lines with ⟨evs, err⟩
    have hn : err = none := by rw [hp] at herr; exact herr
    subst hn
    have hc : check_response c.status = .ok () := by
      unfold check_response
      rw [if_pos hok]
    conv_lhs => rw [watchRun.eq_def]
    dsimp only
    rw [hc]
    dsimp only
    rw [hp]

/-- Claim C6 witness: a 500 connection terminates the watch with the
response error and no events; a 200 connection delivering one valid event
is followed by a reconnection (the run stays pending). -/
theorem claim_C6_witness :
    watchRun [⟨500, [some (Json.obj [("type", Json.s "ADDED"), ("object", Json.null)])]⟩] =
      ([], .raised (.osbsResponseException 500)) ∧
    watchRun [⟨200, [some (Json.obj [("type", Json.s "ADDED"), ("object", Json.null)])]⟩] =
      ([("added", Json.null)], .pending) := by
  constructor
  · exact (claim_C6_status_check
      ⟨500, [some (Json.obj [("type", Json.s "ADDED"), ("object", Json.null)])]⟩ []).1
      (by decide)
  · have := (claim_C6_status_check
      ⟨200, [some (Json.obj [("type", Json.s "ADDED"), ("object", Json.null)])]⟩ []).2
      (by decide) (by decide)
    rw [this]
    decide

/-- Claim C4 (confirmed): a log-streaming connection interrupted with idle
time strictly below the 60-second threshold makes stream_logs stop: the
lines already yielded are the whole output and no further request is
issued; an interruption with idle time at least 60 makes it reissue the
log GET with sinceSeconds = int(idle - 1) — the truncated integer part —
and keep yielding the lines of the later connections; in particular an
interruption at 90 seconds idle reissues with sinceSeconds = 89. -/
theorem claim_C4_stream_logs (c : LogConn) (rest : List LogConn)
    (hs : c.status = 200) :
    (c.idleAtClose < 60 → stream_logs (c :: rest) = (c.lines, [none], none)) ∧
    (60 ≤ c.idleAtClose →
      stream_logs (c :: rest) =
        (c.lines ++ (streamLogsRun rest (some (pyIntTrunc (c.idleAtClose - 1)))).1,
         none :: (streamLogsRun rest (some (pyIntTrunc (c.idleAtClose - 1)))).2.1,
         (streamLogsRun rest (some (pyIntTrunc (c.idleAtClose - 1)))).2.2)) ∧
    (c.idleAtClose = 90 → pyIntTrunc (c.idleAtClose - 1) = 89) := by
  have hc : check_response c.status = .ok () := by
    unfold check_response
    rw [if_pos (Or.inl (by rw [hs]; rfl))]
  refine ⟨?_, ?_, ?_⟩
  · intro hidle
    unfold stream_logs
    conv_lhs => rw [streamLogsRun.eq_def]
    dsimp only
    rw [hc]
    dsimp only
    rw [if_pos hidle]
  · intro hidle
    unfold stream_logs
    conv_lhs => rw [streamLogsRun.eq_def]
    dsimp only
    rw [hc]
    dsimp only
    rw [if_neg (not_lt.mpr hidle)]
  · intro h90
    rw [h90]
    norm_num [pyIntTrunc]

/-- Claim C4 witness: a stream interrupted at 30 seconds idle stops after
its lines with no second request; one interrupted at 90 seconds idle
reissues the request with sinceSeconds 89 and keeps yielding the next
connection's lines. -/
theorem claim_C4_witness :
    stream_logs [⟨200, ["a"], 30⟩] = (["a"], [none], none) ∧
    stream_logs [⟨200, ["a"], 90⟩, ⟨200, ["b"], 10⟩] =
      (["a", "b"], [none, some 89], none) := by
  constructor
  · exact (claim_C4_stream_logs ⟨200, ["a"], 30⟩ [] rfl).1 (by norm_num)
  · have h2 := (claim_C4_stream_logs ⟨200, ["a"], 90⟩ [⟨200, ["b"], 10⟩] rfl).2.1
      (by norm_num)
    have h89 := (claim_C4_stream_logs ⟨200, ["a"], 90⟩ [⟨200, ["b"], 10⟩] rfl).2.2 rfl
    rw [h2, h89]
    have hrest : streamLogsRun [⟨200, ["b"], 10⟩] (some 89) = (["b"], [some 89], none) := by
      conv_lhs => rw [streamLogsRun.eq_def]
      dsimp only
      rw [show check_response 200 = .ok () from rfl]
      dsimp only
      rw [if_pos (by norm_num)]
    rw [hrest]
    rfl

/-- Claim C9 counterexample: a Modified event whose status lastVersion is
the JSON boolean true, with prev_version 0; the claim says events with a
non-integral lastVersion are skipped, so the watch should run off the
stream and raise the 404 response error; in the source
isinstance(True, numbers.Integral) holds, True > 0 holds, and the function
returns the formatted name bc-True instead. -/
theorem claim_C9_counterexample :
    wait_for_new_build_config_instance "bc" 0
      [("modified", Json.obj [("status", Json.obj [("lastVersion", Json.b true)])])] =
      .ok "bc-True" ∧
    wait_for_new_build_config_instance "bc" 0
      [("modified", Json.obj [("status", Json.obj [("lastVersion", Json.b true)])])] ≠
      .error (.osbsResponseException 404) := by
  constructor
  · decide
  · decide

/-- Claim C9 (amended): wait_for_new_build_config_instance returns the
string built from the build config id and the rendered version for the
first Modified event whose status.lastVersion is integral in Python's sense
— a JSON integer, or a JSON boolean which counts as 1/0 and is rendered
True/False — strictly greater than prev_version; Modified events with a
missing, non-integral, or not-greater lastVersion are skipped; the first
Deleted event stops the watch and the operation raises OsbsResponseException
with status 404, as does exhaustion of the stream.  Formally: the result is
the decision taken on the first event for which newInstanceDecision fires,
defaulting to the 404 error. -/
theorem claim_C9_new_instance (bcId : String) (prev : Int)
    (events : List (String × Json)) :
    wait_for_new_build_config_instance bcId prev events =
      (events.findSome? (newInstanceDecision bcId prev)).getD
        (.error (.osbsResponseException httplibNOT_FOUND)) := by
  induction events with
  | nil => rfl
  | cons ev rest ih =>
    obtain ⟨ct, obj⟩ := ev
    rw [List.findSome?_cons]
    conv_lhs => rw [wait_for_new_build_config_instance.eq_def]
    dsimp only
    unfold newInstanceDecision
    dsimp only
    by_cases hm : ct = WATCH_MODIFIED
    · subst hm
      rw [if_pos rfl, if_pos rfl]
      have hmd : ¬(WATCH_MODIFIED = WATCH_DELETED) := by decide
      cases hg : (gracefulChainGet obj ["status", "lastVersion"]).bind pyIntegral with
      | none =>
        dsimp only
        exact ih
      | some p =>
        obtain ⟨v, vs⟩ := p
        dsimp only
        by_cases hv : prev < v
        · rw [if_pos hv, if_pos hv]
          rfl
        · rw [if_neg hv, if_neg hv, if_neg hmd]
          dsimp only
          exact ih
    · rw [if_neg hm, if_neg hm]
      by_cases hd : ct = WATCH_DELETED
      · subst hd
        rw [if_pos rfl, if_pos rfl]
        rfl
      · rw [if_neg hd, if_neg hd]
        dsimp only
        exact ih

/-- Claim C10 (confirmed): import_image raises before watching when the
imagestream spec has no dockerImageRepository key (for any event stream);
once watching, a Deleted or Error event makes it return false rather than
raise; a Modified event whose annotations carry a truthy (non-empty)
dockerRepositoryCheck value decides the result: true exactly when the
event's status tags differ from the tags recorded before the import was
triggered; and a Modified event with a missing or falsy check annotation is
skipped, so the first deciding Modified event determines the result. -/
theorem claim_C10_import_image :
    (∀ (isj spec : Json) (putStatus : Nat) (events : List (String × Json)),
      pyGetD isj "spec" (Json.obj []) = .ok spec →
      pyContains spec "dockerImageRepository" = .ok false →
      import_image isj putStatus events = .error .osbsException) ∧
    (∀ (oldtags obj : Json) (rest : List (String × Json)),
      importWatchLoop oldtags ((WATCH_DELETED, obj) :: rest) = .ok false) ∧
    (∀ (oldtags obj : Json) (rest : List (String × Json)),
      importWatchLoop oldtags ((WATCH_ERROR, obj) :: rest) = .ok false) ∧
    (∀ (oldtags obj md ann v st newtags : Json) (rest : List (String × Json)),
      pyGetD obj "metadata" (Json.obj []) = .ok md →
      pyGetD md "annotations" (Json.obj []) = .ok ann →
      pyGetD ann dockerCheckKey (Json.b false) = .ok v →
      pyTruthy v = true →
      pyGetD obj "status" (Json.obj []) = .ok st →
      pyGetD st "tags" (Json.arr []) = .ok newtags →
      importWatchLoop oldtags ((WATCH_MODIFIED, obj) :: rest) =
        .ok (decide (newtags ≠ oldtags))) ∧
    (∀ (oldtags obj md ann v : Json) (rest : List (String × Json)),
      pyGetD obj "metadata" (Json.obj []) = .ok md →
      pyGetD md "annotations" (Json.obj []) = .ok ann →
      pyGetD ann dockerCheckKey (Json.b false) = .ok v →
      pyTruthy v = false →
      importWatchLoop oldtags ((WATCH_MODIFIED, obj) :: rest) =
        importWatchLoop oldtags rest) := by
  refine ⟨?_, ?_, ?_, ?_, ?_⟩
  · intro isj spec putStatus events hspec hrepo
    unfold import_image
    rw [hspec]
    dsimp only
    rw [hrepo]
    rfl
  · intro oldtags obj rest
    conv_lhs => rw [importWatchLoop.eq_def]
    dsimp only
    rw [if_pos rfl]
  · intro oldtags obj rest
    conv_lhs => rw [importWatchLoop.eq_def]
    dsimp only
    rw [if_neg (show ¬(WATCH_ERROR = WATCH_DELETED) from by decide), if_pos rfl]
  · intro oldtags obj md ann v st newtags rest h1 h2 h3 htr h4 h5
    conv_lhs => rw [importWatchLoop.eq_def]
    dsimp only
    rw [if_neg (show ¬(WATCH_MODIFIED = WATCH_DELETED) from by decide),
      if_neg (show ¬(WATCH_MODIFIED = WATCH_ERROR) from by decide),
      if_pos rfl, h1]
    dsimp only
    rw [h2]
    dsimp only
    rw [h3]
    dsimp only
    rw [if_pos htr, h4]
    dsimp only
    rw [h5]
  · intro oldtags obj md ann v rest h1 h2 h3 htr
    conv_lhs => rw [importWatchLoop.eq_def]
    dsimp only
    rw [if_neg (show ¬(WATCH_MODIFIED = WATCH_DELETED) from by decide),
      if_neg (show ¬(WATCH_MODIFIED = WATCH_ERROR) from by decide),
      if_pos rfl, h1]
    dsimp only
    rw [h2]
    dsimp only
    rw [h3]
    dsimp only
    rw [if_neg (show ¬(pyTruthy v = true) from by simp [htr])]

/-- Claim C10 witness: an imagestream whose spec lacks dockerImageRepository
raises OsbsException whatever events follow; a deleted event returns false;
a modified event with a non-empty check annotation and changed tags returns
true; one with unchanged tags returns false. -/
theorem claim_C10_witness :
    import_image (Json.obj [("spec", Json.obj [])]) 200
      [("modified", Json.obj [])] = .error .osbsException ∧
    importWatchLoop (Json.arr []) [(WATCH_DELETED, Json.null)] = .ok false ∧
    importWatchLoop (Json.arr [])
      [(WATCH_MODIFIED, Json.obj [("metadata", Json.obj [("annotations",
          Json.obj [(dockerCheckKey, Json.s "x")])]),
        ("status", Json.obj [("tags", Json.arr [Json.s "t1"])])])] = .ok true ∧
    importWatchLoop (Json.arr [Json.s "t1"])
      [(WATCH_MODIFIED, Json.obj [("metadata", Json.obj [("annotations",
          Json.obj [(dockerCheckKey, Json.s "x")])]),
        ("status", Json.obj [("tags", Json.arr [Json.s "t1"])])])] = .ok false := by
  refine ⟨?_, ?_, ?_, ?_⟩
  · exact claim_C10_import_image.1 (Json.obj [("spec", Json.obj [])]) (Json.obj []) 200
      [("modified", Json.obj [])] rfl rfl
  · exact claim_C10_import_image.2.1 (Json.arr []) Json.null []
  · have := claim_C10_import_image.2.2.2.1 (Json.arr [])
      (Json.obj [("metadata", Json.obj [("annotations",
          Json.obj [(dockerCheckKey, Json.s "x")])]),
        ("status", Json.obj [("tags", Json.arr [Json.s "t1"])])])
      (Json.obj [("annotations", Json.obj [(dockerCheckKey, Json.s "x")])])
      (Json.obj [(dockerCheckKey, Json.s "x")])
      (Json.s "x")
      (Json.obj [("tags", Json.arr [Json.s "t1"])])
      (Json.arr [Json.s "t1"])
      [] (by decide) (by decide) (by decide) (by decide) (by decide) (by decide)
    rw [this]
    decide
  · have := claim_C10_import_image.2.2.2.1 (Json.arr [Json.s "t1"])
      (Json.obj [("metadata", Json.obj [("annotations",
          Json.obj [(dockerCheckKey, Json.s "x")])]),
        ("status", Json.obj [("tags", Json.arr [Json.s "t1"])])])
      (Json.obj [("annotations", Json.obj [(dockerCheckKey, Json.s "x")])])
      (Json.obj [(dockerCheckKey, Json.s "x")])
      (Json.s "x")
      (Json.obj [("tags", Json.arr [Json.s "t1"])])
      (Json.arr [Json.s "t1"])
      [] (by decide) (by decide) (by decide) (by decide) (by decide) (by decide)
    rw [this]
    decide
